import Mathlib

/-
Verification of the JupyterGIS 3D-view subsystem.

Shallow embedding of:
  packages/base/src/view3d/geojsonToThree.ts   (geojsonToThree, transformCoordinates,
    getProjectionCode, transformGeometry, collectCoordinatesFromGeometry,
    computeCameraPosition)
  packages/base/src/view3d/ThreeViewComponent.tsx   (ThreeViewer.loadGeoJSON)
  packages/base/src/processing/processingCommands.ts   (processSFCGALOperation)

Modelling conventions:
  - JavaScript numbers are modelled as exact rationals for the conversion
    pipeline, and as real numbers for the camera-framing computation whose
    specification is stated with real trigonometric functions.
  - The external projection library (proj4 with its static proj4-list table)
    is an explicit parameter: a lookup table and a transform that can fail,
    covering both a throwing projection definition and a throwing transform.
  - Three.js primitive constructors (Mesh, Line, SphereGeometry markers,
    LineSegments over an EdgesGeometry) are modelled as a tagged primitive
    type carrying the exact vertex data the source hands to them.  The
    bounding-box accumulation (boundingBox.expandByObject, a library-side
    computation over the added objects) is not modelled: no claim below
    depends on it.
-/

namespace JGIS

/-! ## Data model: coordinates, geometries, GeoJSON documents -/

/-- One leaf coordinate tuple of the GeoJSON tree (a JS number array of
length 2 or 3). -/
abbrev Coord := List ℚ

/-- A 3D vertex as handed to the rendering library. -/
abbrev Vtx := ℚ × ℚ × ℚ

/-- A TS value of type number or string, as used for colors. -/
inductive ColorValue where
  | num (v : ℚ)
  | str (s : String)

/-- GeoJSON geometry, the tagged union the per-type switch of geojsonToThree
dispatches on.  TIN and PolyhedralSurface coordinates are faces containing
rings containing coordinate tuples, matching the traversal of
collectCoordinatesFromGeometry and transformGeometry.  Geometry types the
switch does not recognize are collapsed into one unsupported tag. -/
inductive Geometry where
  | point (coordinates : Coord)
  | multiPoint (coordinates : List Coord)
  | lineString (coordinates : List Coord)
  | multiLineString (coordinates : List (List Coord))
  | polygon (coordinates : List (List Coord))
  | multiPolygon (coordinates : List (List (List Coord)))
  | tin (coordinates : List (List (List Coord)))
  | polyhedralSurface (coordinates : List (List (List Coord)))
  | unsupported

/-- A GeoJSON Feature: its geometry may be null. -/
structure Feature where
  geometry : Option Geometry

/-- The three input shapes geojsonToThree accepts at top level. -/
inductive GeoJSONKind where
  | featureCollection (features : List Feature)
  | feature (f : Feature)
  | geometry (g : Geometry)

/-- A GeoJSON document with its optional legacy crs member
(geojson.crs.properties.name, already projected to the name string). -/
structure GeoJSON where
  crs : Option String
  kind : GeoJSONKind

/-- The feature list geojsonToThree normalizes its input to:
a FeatureCollection keeps its features, a Feature becomes a singleton, and a
bare geometry is wrapped as a Feature. -/
def featuresOf (g : GeoJSON) : List Feature :=
  match g.kind with
  | GeoJSONKind.featureCollection fs => fs
  | GeoJSONKind.feature f => [f]
  | GeoJSONKind.geometry geom => [⟨some geom⟩]

/-! ## Coordinate reprojection (transformCoordinates and its proj4 collaborators) -/

/-- The external proj4 library together with the static proj4-list table:
list is the registry lookup by CRS code, transform is
proj4(sourceCRS, targetCRS, coordinates), which can throw.  A projection
definition that throws inside the try block is folded into a failing
transform. -/
structure Proj4 where
  list : String → Option String
  transform : String → String → Coord → Except String Coord

/-- transformCoordinates from geojsonToThree.ts: an unregistered source CRS
returns the input unchanged (with a console warning), and any exception
during definition or transformation is caught and the input returned
unchanged. -/
def transformCoordinates (p : Proj4) (coordinates : Coord)
    (sourceCRS targetCRS : String) : Coord :=
  match p.list sourceCRS with
  | none => coordinates
  | some _ =>
    match p.transform sourceCRS targetCRS coordinates with
    | Except.error _ => coordinates
    | Except.ok result => result

/-- Replace the first occurrence of a double colon by a single colon, the JS
String.replace with a plain-string pattern applied to the two colons. -/
def replaceFirstDoubleColon (s : String) : String :=
  match s.splitOn ("::") with
  | a :: b :: rest => a ++ ":" ++ String.intercalate ("::") (b :: rest)
  | _ => s

/-- getProjectionCode from geojsonToThree.ts: reads geojson.crs.properties.name
and normalizes the urn form urn:ogc:def:crs:EPSG::3946 to EPSG:3946 by
dropping the 16-character prefix and replacing the first double colon. -/
def getProjectionCode (g : GeoJSON) : Option String :=
  match g.crs with
  | none => none
  | some crsName =>
    if crsName.startsWith ("urn:ogc:def:crs:") then
      some (replaceFirstDoubleColon (crsName.drop 16))
    else
      some crsName

/-! ## 3D detection -/

/-- Helper of the detection scan: a point has Z when it has more than two
components. -/
def hasZ (point : Coord) : Bool :=
  decide (2 < point.length)

/-- The per-geometry part of the Z-coordinate detection switch: TIN and
PolyhedralSurface are inherently 3D, unrecognized types contribute nothing. -/
def geometryHas3D : Geometry → Bool
  | Geometry.point c => hasZ c
  | Geometry.multiPoint cs => cs.any hasZ
  | Geometry.lineString cs => cs.any hasZ
  | Geometry.multiLineString ls => ls.any (fun line => line.any hasZ)
  | Geometry.polygon rings => rings.any (fun ring => ring.any hasZ)
  | Geometry.multiPolygon polys =>
      polys.any (fun poly => poly.any (fun ring => ring.any hasZ))
  | Geometry.tin _ => true
  | Geometry.polyhedralSurface _ => true
  | Geometry.unsupported => false

/-- has3DCoordinates of geojsonToThree: some feature with a geometry whose
scan finds a third component (features without geometry are skipped). -/
def has3DCoordinates (g : GeoJSON) : Bool :=
  (featuresOf g).any (fun f =>
    match f.geometry with
    | none => false
    | some geom => geometryHas3D geom)

/-- needsTransformation: a source CRS was found and it differs from the
display CRS EPSG:4326. -/
def needsTransformationFn (g : GeoJSON) : Bool :=
  match getProjectionCode g with
  | none => false
  | some c => c != "EPSG:4326"

/-- shouldTransform: needsTransformation, a truthy (non-empty) sourceCRS
string, and no 3D coordinates.  The middle conjunct mirrors the JS truthiness
test of the sourceCRS string in the source expression. -/
def shouldTransformFn (g : GeoJSON) : Bool :=
  needsTransformationFn g &&
    (match getProjectionCode g with
     | none => false
     | some c => c != "") &&
    !has3DCoordinates g

/-! ## Geometry-wide transformation and coordinate collection -/

/-- transformGeometry from geojsonToThree.ts: maps transformCoordinates over
every leaf tuple, per geometry type, toward the default target EPSG:4326.
Types outside the switch keep their coordinates. -/
def transformGeometry (p : Proj4) (sourceCRS : String) : Geometry → Geometry
  | Geometry.point c =>
      Geometry.point (transformCoordinates p c sourceCRS ("EPSG:4326"))
  | Geometry.multiPoint cs =>
      Geometry.multiPoint
        (cs.map (fun c => transformCoordinates p c sourceCRS ("EPSG:4326")))
  | Geometry.lineString cs =>
      Geometry.lineString
        (cs.map (fun c => transformCoordinates p c sourceCRS ("EPSG:4326")))
  | Geometry.multiLineString ls =>
      Geometry.multiLineString
        (ls.map (fun line =>
          line.map (fun c => transformCoordinates p c sourceCRS ("EPSG:4326"))))
  | Geometry.polygon rings =>
      Geometry.polygon
        (rings.map (fun ring =>
          ring.map (fun c => transformCoordinates p c sourceCRS ("EPSG:4326"))))
  | Geometry.multiPolygon polys =>
      Geometry.multiPolygon
        (polys.map (fun poly =>
          poly.map (fun ring =>
            ring.map (fun c => transformCoordinates p c sourceCRS ("EPSG:4326")))))
  | Geometry.tin faces =>
      Geometry.tin
        (faces.map (fun face =>
          face.map (fun ring =>
            ring.map (fun c => transformCoordinates p c sourceCRS ("EPSG:4326")))))
  | Geometry.polyhedralSurface faces =>
      Geometry.polyhedralSurface
        (faces.map (fun face =>
          face.map (fun ring =>
            ring.map (fun c => transformCoordinates p c sourceCRS ("EPSG:4326")))))
  | Geometry.unsupported => Geometry.unsupported

/-- collectCoordinatesFromGeometry: flattens every leaf tuple of the geometry
into the accumulator sequence, in traversal order; unrecognized types
contribute nothing. -/
def collectCoordinatesFromGeometry : Geometry → List Coord
  | Geometry.point c => [c]
  | Geometry.multiPoint cs => cs
  | Geometry.lineString cs => cs
  | Geometry.multiLineString ls => ls.flatten
  | Geometry.polygon rings => rings.flatten
  | Geometry.multiPolygon polys => polys.flatten.flatten
  | Geometry.tin faces => faces.flatten.flatten
  | Geometry.polyhedralSurface faces => faces.flatten.flatten
  | Geometry.unsupported => []

/-- Coordinates contributed by one feature (features without geometry are
skipped by the collection loop). -/
def collectFromFeature (f : Feature) : List Coord :=
  match f.geometry with
  | none => []
  | some geom => collectCoordinatesFromGeometry geom

/-- The allCoordinates accumulator after the collection loop over a feature
list. -/
def collectAllFeatures (fs : List Feature) : List Coord :=
  fs.foldl (fun acc f => acc ++ collectFromFeature f) []

/-- The transformation-and-collection phase of geojsonToThree: when
shouldTransform holds (so a source CRS is present), every feature geometry is
mapped through transformGeometry and coordinates are collected from the
transformed features; otherwise the original features are kept and collected
from directly. -/
def conversionSetup (p : Proj4) (g : GeoJSON) : List Feature × List Coord :=
  let features := featuresOf g
  match getProjectionCode g, shouldTransformFn g with
  | some sourceCRS, true =>
    let transformed := features.map (fun f =>
      match f.geometry with
      | none => f
      | some geom => ⟨some (transformGeometry p sourceCRS geom)⟩)
    (transformed, collectAllFeatures transformed)
  | _, _ => (features, collectAllFeatures features)

/-- The centroid of the collected coordinates: componentwise mean with a
missing third component read as 0 (the JS expression coord[2] || 0), and the
zero vector when nothing was collected. -/
def centroidOf (cs : List Coord) : Vtx :=
  if cs.length = 0 then (0, 0, 0)
  else
    let n : ℚ := cs.length
    let s := cs.foldl
      (fun acc c => (acc.1 + c.getD 0 0, acc.2.1 + c.getD 1 0, acc.2.2 + c.getD 2 0))
      ((0 : ℚ), (0 : ℚ), (0 : ℚ))
    (s.1 / n, s.2.1 / n, s.2.2 / n)

/-! ## Options -/

/-- GeoJSONToThreeOptions: all fields optional. -/
structure GeoJSONToThreeOptions where
  color : Option ColorValue
  extrude : Option Bool
  extrudeHeight : Option ℚ
  wireframe : Option Bool
  wireframeColor : Option ColorValue

/-- The option record after destructuring with defaults at the top of
geojsonToThree. -/
structure ResolvedOptions where
  color : ColorValue
  extrude : Bool
  extrudeHeight : ℚ
  wireframe : Bool
  wireframeColor : ColorValue

/-- The defaults of the destructuring: color 0x00ff00 (65280), extrude false,
extrudeHeight 10, wireframe true, wireframeColor 0x000000 (0). -/
def resolveOptions (o : GeoJSONToThreeOptions) : ResolvedOptions :=
  ⟨o.color.getD (ColorValue.num 65280),
   o.extrude.getD false,
   o.extrudeHeight.getD 10,
   o.wireframe.getD true,
   o.wireframeColor.getD (ColorValue.num 0)⟩

/-- A call that passes no options: every field absent. -/
def emptyOptions : GeoJSONToThreeOptions :=
  ⟨none, none, none, none, none⟩

/-! ## Scene primitives -/

/-- The geometry payload handed to a Three.js mesh: a raw BufferGeometry with
a position attribute and an optional index (empty list = non-indexed), a 2D
ShapeGeometry outline, or an ExtrudeGeometry outline with its depth. -/
inductive ThreeGeom where
  | buffer (vertices : List Vtx) (indices : List (Nat × Nat × Nat))
  | shape (points : List (ℚ × ℚ))
  | extruded (points : List (ℚ × ℚ)) (depth : ℚ)

/-- One scene-graph child added by the conversion: a filled mesh, a sphere
point marker positioned at a vertex, a polyline, or the LineSegments built
from an EdgesGeometry of the mesh geometry it overlays. -/
inductive Primitive where
  | mesh (geom : ThreeGeom) (color : ColorValue)
  | pointMarker (position : Vtx) (color : ColorValue)
  | line (points : List Vtx) (color : ColorValue)
  | edgeOutline (source : ThreeGeom) (color : ColorValue)

/-- Recognizer for the wireframe edge-outline primitives. -/
def isEdgeOutline : Primitive → Bool
  | Primitive.edgeOutline _ _ => true
  | _ => false

/-! ## Per-geometry emission -/

/-- One ring point of the 3D polygon path turned into a vertex: centroid
subtracted, Z defaulting to 0 when the point has fewer than three
components. -/
def coordToVertex (cen : Vtx) (point : Coord) : Vtx :=
  if 3 ≤ point.length then
    (point.getD 0 0 - cen.1, point.getD 1 0 - cen.2.1, point.getD 2 0 - cen.2.2)
  else
    (point.getD 0 0 - cen.1, point.getD 1 0 - cen.2.1, 0 - cen.2.2)

/-- The vertex list of the 3D polygon path: the outer ring with its last
(closing) point dropped, each point centered on the centroid. -/
def fanVertices (cen : Vtx) (outerRing : List Coord) : List Vtx :=
  (outerRing.dropLast).map (coordToVertex cen)

/-- The fan triangulation index list over m vertices: triples (0, i, i+1) for
i from 1 to m-2, produced only when at least three vertices exist (the
source guard vertices.length >= 9 over the flat coordinate array). -/
def fanIndices (m : Nat) : List (Nat × Nat × Nat) :=
  if 3 ≤ m then (List.range (m - 2)).map (fun i => (0, i + 1, i + 2)) else []

/-- The 2D shape path of a ring: the moveTo/lineTo sequence over the ring
points, X and Y centered on the centroid. -/
def shapePointsOf (cen : Vtx) (ring : List Coord) : List (ℚ × ℚ) :=
  ring.map (fun point => (point.getD 0 0 - cen.1, point.getD 1 0 - cen.2.1))

/-- The Polygon case of geojsonToThree (also run per polygon of a
MultiPolygon, where the source duplicates this block verbatim).  On the 3D
path (3D data, no extrusion) a fan-triangulated buffer mesh over the outer
ring is emitted, with an edge outline when wireframe is set.  Otherwise a 2D
shape from the outer ring is either extruded (mesh plus optional edge
outline) or filled flat (mesh only).  Interior rings are never read. -/
def polygonPrims (has3D : Bool) (ro : ResolvedOptions) (cen : Vtx)
    (rings : List (List Coord)) : List Primitive :=
  if has3D && !ro.extrude then
    let vertices := fanVertices cen (rings.headD [])
    let indices := fanIndices vertices.length
    Primitive.mesh (ThreeGeom.buffer vertices indices) ro.color ::
      (if ro.wireframe then
        [Primitive.edgeOutline (ThreeGeom.buffer vertices indices) ro.wireframeColor]
      else [])
  else
    let pts := shapePointsOf cen (rings.headD [])
    if ro.extrude then
      Primitive.mesh (ThreeGeom.extruded pts ro.extrudeHeight) ro.color ::
        (if ro.wireframe then
          [Primitive.edgeOutline (ThreeGeom.extruded pts ro.extrudeHeight) ro.wireframeColor]
        else [])
    else
      [Primitive.mesh (ThreeGeom.shape pts) ro.color]

/-- Group a flat number sequence into vertex triples (the itemSize-3 position
attribute layout); a trailing fragment shorter than three numbers is
dropped. -/
def regroup3 : List ℚ → List Vtx
  | x :: y :: z :: rest => (x, y, z) :: regroup3 rest
  | _ => []

/-- The TIN / PolyhedralSurface vertex array: the coordinate tree flattened
to a plain number sequence and each X, Y, Z centered on the centroid.  The
source writes coordinates.flat(2) followed by an index-cycling map that
subtracts centroidX, centroidY, centroidZ at positions 0, 1, 2 modulo 3 of
the flat number list; this models that flatten-then-cyclic-subtract as a full
flatten, a regrouping into triples, and a componentwise subtraction. -/
def tinVertices (cen : Vtx) (faces : List (List (List Coord))) : List Vtx :=
  (regroup3 faces.flatten.flatten.flatten).map
    (fun v => (v.1 - cen.1, v.2.1 - cen.2.1, v.2.2 - cen.2.2))

/-- The TIN and PolyhedralSurface cases (the source has the same block for
both): a non-indexed buffer mesh over the flattened faces, with an edge
outline when wireframe is set. -/
def tinPrims (ro : ResolvedOptions) (cen : Vtx)
    (faces : List (List (List Coord))) : List Primitive :=
  let vertices := tinVertices cen faces
  Primitive.mesh (ThreeGeom.buffer vertices []) ro.color ::
    (if ro.wireframe then
      [Primitive.edgeOutline (ThreeGeom.buffer vertices []) ro.wireframeColor]
    else [])

/-- A coordinate tuple as a centered vertex with the JS default (value || 0)
for the third component, used by the Point, MultiPoint, LineString and
MultiLineString cases. -/
def pointVertex (cen : Vtx) (c : Coord) : Vtx :=
  (c.getD 0 0 - cen.1, c.getD 1 0 - cen.2.1, c.getD 2 0 - cen.2.2)

/-- The per-geometry switch of the main conversion loop.  Points become
sphere markers at their centered position, lines become polylines drawn with
the wireframe material, polygons dispatch through polygonPrims, TIN and
PolyhedralSurface through tinPrims, and an unrecognized type emits nothing. -/
def geometryToPrimitives (has3D : Bool) (ro : ResolvedOptions) (cen : Vtx) :
    Geometry → List Primitive
  | Geometry.polygon rings => polygonPrims has3D ro cen rings
  | Geometry.multiPolygon polys =>
      polys.foldl (fun acc poly => acc ++ polygonPrims has3D ro cen poly) []
  | Geometry.point c => [Primitive.pointMarker (pointVertex cen c) ro.color]
  | Geometry.multiPoint cs =>
      cs.map (fun c => Primitive.pointMarker (pointVertex cen c) ro.color)
  | Geometry.lineString cs =>
      [Primitive.line (cs.map (pointVertex cen)) ro.wireframeColor]
  | Geometry.multiLineString ls =>
      ls.map (fun line => Primitive.line (line.map (pointVertex cen)) ro.wireframeColor)
  | Geometry.tin faces => tinPrims ro cen faces
  | Geometry.polyhedralSurface faces => tinPrims ro cen faces
  | Geometry.unsupported => []

/-- geojsonToThree: resolve options, detect 3D data, reproject when due,
compute the centroid of the collected coordinates, and emit primitives per
feature geometry in order (features without geometry are skipped). -/
def geojsonToThree (p : Proj4) (geojson : GeoJSON)
    (options : GeoJSONToThreeOptions) : List Primitive :=
  let ro := resolveOptions options
  let has3D := has3DCoordinates geojson
  let setup := conversionSetup p geojson
  let cen := centroidOf setup.2
  setup.1.foldl
    (fun acc f =>
      match f.geometry with
      | none => acc
      | some geom => acc ++ geometryToPrimitives has3D ro cen geom)
    []

/-! ## ThreeViewer.loadGeoJSON (ThreeViewComponent.tsx) -/

/-- The viewer state loadGeoJSON manipulates: the current content object (by
identifier), the scene children that are content objects, and the identifiers
whose geometry and material resources disposeObject has released.  The grid,
light and camera bookkeeping of the method is not modelled: no claim below
depends on it. -/
structure ViewerState where
  currentObject : Option Nat
  sceneChildren : List Nat
  disposed : List Nat

/-- The opening block of loadGeoJSON: when a current object exists it is
removed from the scene, disposed, and the current-object reference cleared,
before anything else happens. -/
def clearCurrentObject (st : ViewerState) : ViewerState :=
  match st.currentObject with
  | none => st
  | some o => ⟨none, st.sceneChildren.erase o, st.disposed ++ [o]⟩

/-- loadGeoJSON: clear the prior content, return early on a null input, then
run the conversion inside try/catch.  On success the produced object is added
to the scene and becomes current; on a thrown conversion error the error is
logged and re-thrown (the second component).  The converter is a parameter so
that a throwing scene-library conversion is expressible. -/
def loadGeoJSON {α : Type} (st : ViewerState) (geojson : Option α)
    (convert : α → Except String Nat) : ViewerState × Option String :=
  let st1 := clearCurrentObject st
  match geojson with
  | none => (st1, none)
  | some g =>
    match convert g with
    | Except.ok objId => (⟨some objId, st1.sceneChildren ++ [objId], st1.disposed⟩, none)
    | Except.error e => (st1, some e)

/-! ## processSFCGALOperation (processingCommands.ts) -/

/-- The slice of the processing form the control flow reads. -/
structure SFCGALFormValues where
  embedOutputLayer : Bool

/-- The external collaborators of one processSFCGALOperation run, fixed for
that run: the availability answer (checkSFCGALAvailability catches its own
errors and never throws), whether a single layer with a current widget is
selected, the GeoJSON text of that layer, the dialog outcome, JSON.parse,
the remote executeSFCGALProcessing call, the contents.save call, and the
fresh identifiers the run would mint. -/
structure SFCGALEnv (γ : Type) where
  available : Bool
  selected : Bool
  geojsonString : Option String
  formValues : Option SFCGALFormValues
  parse : String → Except String γ
  execute : γ → Except String γ
  save : Except String Unit
  sourceId : Nat
  layerId : Nat

/-- A mutation of the shared document model. -/
inductive DocMutation where
  | addSource (id : Nat)
  | addLayer (id : Nat)

/-- processSFCGALOperation: availability check, early returns for no
selection, no GeoJSON and no form result, then the try block parsing the
input, executing remotely, and only then creating the source and layer
(after a successful save on the file-backed path).  The first component is
the list of document mutations performed, the second the error dialog shown,
if any. -/
def processSFCGALOperation {γ : Type} (env : SFCGALEnv γ) :
    List DocMutation × Option String :=
  if env.available = false then ([], some ("SFCGAL Not Available"))
  else if env.selected = false then ([], none)
  else
    match env.geojsonString with
    | none => ([], none)
    | some gs =>
      match env.formValues with
      | none => ([], none)
      | some fv =>
        match env.parse gs with
        | Except.error e => ([], some ("Processing Failed: " ++ e))
        | Except.ok geojson =>
          match env.execute geojson with
          | Except.error e => ([], some ("Processing Failed: " ++ e))
          | Except.ok _result =>
            if fv.embedOutputLayer then
              ([DocMutation.addSource env.sourceId, DocMutation.addLayer env.layerId], none)
            else
              match env.save with
              | Except.error e => ([], some ("Processing Failed: " ++ e))
              | Except.ok _ =>
                ([DocMutation.addSource env.sourceId, DocMutation.addLayer env.layerId], none)

/-! ## computeCameraPosition (geojsonToThree.ts) over the reals -/

/-- A Three.js Vector3 over the reals. -/
structure Vec3 where
  x : ℝ
  y : ℝ
  z : ℝ

/-- Componentwise addition (Vector3.add). -/
def Vec3.add (a b : Vec3) : Vec3 :=
  ⟨a.x + b.x, a.y + b.y, a.z + b.z⟩

/-- Componentwise subtraction (Vector3.sub). -/
def Vec3.sub (a b : Vec3) : Vec3 :=
  ⟨a.x - b.x, a.y - b.y, a.z - b.z⟩

/-- Scalar multiplication (Vector3.multiplyScalar). -/
def Vec3.smul (a : Vec3) (s : ℝ) : Vec3 :=
  ⟨a.x * s, a.y * s, a.z * s⟩

/-- Euclidean length (Vector3.length). -/
noncomputable def Vec3.length (a : Vec3) : ℝ :=
  Real.sqrt (a.x ^ 2 + a.y ^ 2 + a.z ^ 2)

open Classical in
/-- Vector3.normalize: divide by the length, guarded by the JS expression
length || 1 that substitutes 1 for a zero length. -/
noncomputable def Vec3.normalize (a : Vec3) : Vec3 :=
  let l := a.length
  let d := if l = 0 then 1 else l
  ⟨a.x / d, a.y / d, a.z / d⟩

/-- A Three.js Box3. -/
structure Box3 where
  min : Vec3
  max : Vec3

/-- Box3.isEmpty: some max component below the matching min component. -/
def Box3.isEmpty (b : Box3) : Prop :=
  b.max.x < b.min.x ∨ b.max.y < b.min.y ∨ b.max.z < b.min.z

open Classical in
/-- Box3.getSize: max minus min, or the zero vector for an empty box. -/
noncomputable def Box3.getSize (b : Box3) : Vec3 :=
  if b.isEmpty then ⟨0, 0, 0⟩ else b.max.sub b.min

open Classical in
/-- Box3.getCenter: the midpoint of min and max, or the zero vector for an
empty box. -/
noncomputable def Box3.getCenter (b : Box3) : Vec3 :=
  if b.isEmpty then ⟨0, 0, 0⟩ else (b.min.add b.max).smul (1 / 2)

/-- computeCameraPosition from geojsonToThree.ts: the largest extent of the
bounding box, a fit distance computed with Math.atan of pi times fov over
360, the larger of the height fit and the width fit (height fit divided by
the aspect), and the box center displaced by that distance along the
normalized direction (1, -1, 1). -/
noncomputable def computeCameraPosition (b : Box3) (fov aspect : ℝ) : Vec3 :=
  let size := b.getSize
  let center := b.getCenter
  let maxSize := max (max size.x size.y) size.z
  let fitHeightDistance := maxSize / (2 * Real.arctan (Real.pi * fov / 360))
  let fitWidthDistance := fitHeightDistance / aspect
  let distance := max fitHeightDistance fitWidthDistance
  let direction := Vec3.normalize ⟨1, -1, 1⟩
  center.add (direction.smul distance)

/-- Camera position as the specification words it (section 4.4): required
viewing distance maxSize divided by twice the tangent of fieldOfView times
pi over 360, the larger of the height fit and the width fit, along the
normalized direction (1, -1, 1) from the center.  This definition follows
the words of the spec and is compared against computeCameraPosition, which
follows the source. -/
noncomputable def cameraPositionSpec (b : Box3) (fov aspect : ℝ) : Vec3 :=
  let size := b.getSize
  let center := b.getCenter
  let maxSize := max (max size.x size.y) size.z
  let fitHeightDistance := maxSize / (2 * Real.tan (Real.pi * fov / 360))
  let fitWidthDistance := fitHeightDistance / aspect
  let distance := max fitHeightDistance fitWidthDistance
  let direction := Vec3.normalize ⟨1, -1, 1⟩
  center.add (direction.smul distance)

/-! ## Concrete inputs used by witnesses and counterexamples -/

/-- A projection stub whose registry is empty. -/
def projNone : Proj4 :=
  ⟨fun _ => none, fun _ _ c => Except.ok c⟩

/-- A projection stub that registers every code and shifts every component,
so that a conversion that consulted it would change its output. -/
def projShift : Proj4 :=
  ⟨fun _ => some ("+proj=test"), fun _ _ c => Except.ok (c.map (fun v => v + 1))⟩

/-- A single 3D Point with no CRS declared. -/
def pointDoc : GeoJSON :=
  ⟨none, GeoJSONKind.geometry (Geometry.point [10, 20, 5])⟩

/-- A single 3D Point with a declared source CRS differing from EPSG:4326. -/
def crs3DDoc : GeoJSON :=
  ⟨some ("EPSG:3946"), GeoJSONKind.geometry (Geometry.point [10, 20, 5])⟩

/-- A purely 2D Polygon (closed square ring, no Z anywhere). -/
def poly2DDoc : GeoJSON :=
  ⟨none, GeoJSONKind.geometry
    (Geometry.polygon [[[0, 0], [4, 0], [4, 4], [0, 4], [0, 0]]])⟩

/-- A Polygon with Z coordinates (closed triangle ring). -/
def poly3DDoc : GeoJSON :=
  ⟨none, GeoJSONKind.geometry
    (Geometry.polygon [[[0, 0, 0], [2, 0, 0], [0, 2, 0], [0, 0, 0]]])⟩

/-- A closed square ring with Z coordinates. -/
def ring3D : List Coord :=
  [[0, 0, 0], [4, 0, 1], [4, 4, 2], [0, 4, 1], [0, 0, 0]]

/-- A converter that always throws, standing for a scene-library conversion
failure on a degenerate shape. -/
def failConvert : Nat → Except String Nat :=
  fun _ => Except.error ("boom")

/-- A viewer state with one loaded content object. -/
def loadedState : ViewerState :=
  ⟨some 1, [1], []⟩

/-- The unit box from the origin. -/
noncomputable def unitBox : Box3 :=
  ⟨⟨0, 0, 0⟩, ⟨1, 1, 1⟩⟩

/-- The degenerate box at the origin. -/
noncomputable def zeroBox : Box3 :=
  ⟨⟨0, 0, 0⟩, ⟨0, 0, 0⟩⟩

/-- An axis-aligned cube of edge S centered at the origin. -/
noncomputable def cubeBox (S : ℝ) : Box3 :=
  ⟨⟨-(S / 2), -(S / 2), -(S / 2)⟩, ⟨S / 2, S / 2, S / 2⟩⟩

/-! ## Helper lemmas -/

theorem shouldTransformFn_eq_false_of_has3D (g : GeoJSON)
    (h : has3DCoordinates g = true) : shouldTransformFn g = false := by
  unfold shouldTransformFn
  rw [h]
  simp

theorem conversionSetup_of_has3D (p : Proj4) (g : GeoJSON)
    (h : has3DCoordinates g = true) :
    conversionSetup p g = (featuresOf g, collectAllFeatures (featuresOf g)) := by
  unfold conversionSetup
  have hs := shouldTransformFn_eq_false_of_has3D g h
  rcases hc : getProjectionCode g with _ | c <;> simp [hc, hs]

theorem coordToVertex_explicit (cen : Vtx) (q : Coord) :
    coordToVertex cen q =
      (q.getD 0 0 - cen.1, q.getD 1 0 - cen.2.1,
        (if 3 ≤ q.length then q.getD 2 0 else 0) - cen.2.2) := by
  unfold coordToVertex
  split <;> rfl

theorem fanVertices_getD (cen : Vtx) (r : List Coord) (i : Nat)
    (h : i < (fanVertices cen r).length) :
    (fanVertices cen r).getD i (0, 0, 0) = coordToVertex cen (r.getD i []) := by
  unfold fanVertices at h ⊢
  have h1 : i < r.dropLast.length := by simpa using h
  have h2 : i < r.length := by
    rw [List.length_dropLast] at h1
    omega
  rw [List.getD_eq_getElem _ _ (by simpa using h1), List.getD_eq_getElem _ _ h2,
    List.getElem_map]
  congr 1
  exact List.getElem_dropLast r i h1

theorem any_foldl_append {β : Type} (f : β → List Primitive)
    (pred : Primitive → Bool) (l : List β) (init : List Primitive) :
    (l.foldl (fun acc x => acc ++ f x) init).any pred =
      (init.any pred || l.any (fun x => (f x).any pred)) := by
  induction l generalizing init with
  | nil => simp
  | cons x xs ih => simp [List.foldl_cons, ih, List.any_append, Bool.or_assoc]

theorem polygonPrims_any_isEdgeOutline (has3D : Bool) (ro : ResolvedOptions)
    (cen : Vtx) (rings : List (List Coord)) (hw : ro.wireframe = true) :
    (polygonPrims has3D ro cen rings).any isEdgeOutline =
      (has3D && !ro.extrude || ro.extrude) := by
  cases h3 : has3D <;> cases hex : ro.extrude <;>
    simp [polygonPrims, hw, hex, isEdgeOutline]

/-! ## Claim C5 -/

/-- C5: for every coordinate tuple and every source CRS code absent from the
static registry, transformCoordinates returns the input unchanged and does
not raise; and any failure thrown during projection definition or
transformation is caught, returning the original coordinates unchanged. -/
theorem c5_transform_fallback (p : Proj4) (coordinates : Coord)
    (sourceCRS targetCRS : String) :
    (p.list sourceCRS = none →
      transformCoordinates p coordinates sourceCRS targetCRS = coordinates) ∧
    (∀ d e, p.list sourceCRS = some d →
      p.transform sourceCRS targetCRS coordinates = Except.error e →
      transformCoordinates p coordinates sourceCRS targetCRS = coordinates) := by
  constructor
  · intro h
    unfold transformCoordinates
    rw [h]
  · intro d e hd he
    unfold transformCoordinates
    rw [hd, he]

/-- Witness for C5 at the unregistered code EPSG:999999 against an empty
registry. -/
theorem c5_witness :
    transformCoordinates projNone [1, 2] ("EPSG:999999") ("EPSG:4326") = [1, 2] :=
  (c5_transform_fallback projNone [1, 2] ("EPSG:999999") ("EPSG:4326")).1 rfl

/-! ## Claim C10 -/

/-- C10: with the options argument omitted the defaults are color 0x00ff00
(65280), extrude false, extrudeHeight 10, wireframe true and wireframeColor
0x000000 (0), so a caller passing no options gets wireframe edge outlines on
3D meshes without requesting them. -/
theorem c10_option_defaults :
    resolveOptions emptyOptions =
      ⟨ColorValue.num 65280, false, 10, true, ColorValue.num 0⟩ ∧
    (geojsonToThree projNone poly3DDoc emptyOptions).any isEdgeOutline = true :=
  ⟨rfl, rfl⟩

/-! ## Claim C8 -/

/-- C8: converting the single input Point (10, 20, 5) with no CRS declared
yields exactly one point-marker primitive positioned at the origin: the
single-point centroid (10, 20, 5) is subtracted from the point itself,
whatever the projection library holds. -/
theorem c8_point_roundtrip (p : Proj4) :
    geojsonToThree p pointDoc emptyOptions =
      [Primitive.pointMarker (0, 0, 0) (ColorValue.num 65280)] := by
  have h0 : geojsonToThree p pointDoc emptyOptions =
      [Primitive.pointMarker (pointVertex (centroidOf [[10, 20, 5]]) [10, 20, 5])
        (ColorValue.num 65280)] := rfl
  rw [h0]
  have h1 : centroidOf [[10, 20, 5]] = (10, 20, 5) := by
    simp [centroidOf]
  rw [h1]
  simp [pointVertex]

/-! ## Claim C3 -/

/-- C3: on any input with 3D data (a leaf Z component somewhere, or a TIN or
PolyhedralSurface, which make has3DCoordinates true), no reprojection is
applied even under a declared differing CRS: the conversion output is the
same for any two projection libraries, the features used for emission are
the original features, and the coordinates feeding the centroid are the ones
collected from the original features. -/
theorem c3_no_reprojection_when_3d (p q : Proj4) (g : GeoJSON)
    (opts : GeoJSONToThreeOptions) (h : has3DCoordinates g = true) :
    geojsonToThree p g opts = geojsonToThree q g opts ∧
    (conversionSetup p g).1 = featuresOf g ∧
    (conversionSetup p g).2 = collectAllFeatures (featuresOf g) := by
  have hp := conversionSetup_of_has3D p g h
  have hq := conversionSetup_of_has3D q g h
  refine ⟨?_, by rw [hp], by rw [hp]⟩
  unfold geojsonToThree
  rw [hp, hq]

/-- Witness for C3: a 3D Point with declared CRS EPSG:3946 converts
identically under an empty registry and under a registry whose transform
shifts every coordinate. -/
theorem c3_witness :
    geojsonToThree projNone crs3DDoc emptyOptions =
      geojsonToThree projShift crs3DDoc emptyOptions :=
  (c3_no_reprojection_when_3d projNone projShift crs3DDoc emptyOptions rfl).1

/-! ## Claim C6 -/

/-- C6: on the 3D path (3D data, extrusion off) a Polygon whose exterior ring
has n points drops the last ring point, emitting n - 1 vertices, each the
ring point minus the centroid with a missing Z read as 0; with at least 3
vertices the index list is exactly the fan (0, i, i+1) for i = 1 .. m-2; and
interior rings contribute nothing (the emission ignores them entirely). -/
theorem c6_fan_triangulation (r : List Coord) (rest rest2 : List (List Coord))
    (cen : Vtx) (ro : ResolvedOptions) (hx : ro.extrude = false) :
    polygonPrims true ro cen (r :: rest) = polygonPrims true ro cen (r :: rest2) ∧
    (polygonPrims true ro cen (r :: rest)).head? =
      some (Primitive.mesh
        (ThreeGeom.buffer (fanVertices cen r) (fanIndices (fanVertices cen r).length))
        ro.color) ∧
    (fanVertices cen r).length = r.length - 1 ∧
    (∀ i, i < (fanVertices cen r).length →
      (fanVertices cen r).getD i (0, 0, 0) =
        ((r.getD i []).getD 0 0 - cen.1, (r.getD i []).getD 1 0 - cen.2.1,
          (if 3 ≤ (r.getD i []).length then (r.getD i []).getD 2 0 else 0) - cen.2.2)) ∧
    (3 ≤ (fanVertices cen r).length →
      fanIndices (fanVertices cen r).length =
        (List.range ((fanVertices cen r).length - 2)).map (fun i => (0, i + 1, i + 2))) := by
  refine ⟨?_, ?_, ?_, ?_, ?_⟩
  · simp [polygonPrims, hx]
  · simp [polygonPrims, hx]
  · simp [fanVertices]
  · intro i hi
    rw [fanVertices_getD cen r i hi, coordToVertex_explicit]
  · intro h3
    rw [fanIndices, if_pos h3]

/-- Witness for C6 on a concrete closed 3D square ring: five ring points emit
four vertices. -/
theorem c6_witness :
    (fanVertices (0, 0, 0) ring3D).length = ring3D.length - 1 :=
  (c6_fan_triangulation ring3D [] [] (0, 0, 0) (resolveOptions emptyOptions) rfl).2.2.1

/-! ## Claim C7 -/

/-- C7 counterexample: with the default options (wireframe set, extrusion
off) a purely 2D Polygon goes down the flat ShapeGeometry path and the
conversion emits no edge-outline primitive at all, so the wireframe overlay
is not emitted in every mode. -/
theorem c7_counterexample :
    (resolveOptions emptyOptions).wireframe = true ∧
    (geojsonToThree projNone poly2DDoc emptyOptions).any isEdgeOutline = false :=
  ⟨rfl, rfl⟩

/-- C7 amended: with wireframe set, an edge-outline primitive is emitted
alongside the mesh on the 3D direct-triangulation path and on the extruded
path, for a Polygon and for every polygon of a non-empty MultiPolygon, but
the flat 2D (non-extruded) path emits the fill mesh only, with no edge
outline. -/
theorem c7_wireframe_modes (ro : ResolvedOptions) (cen : Vtx)
    (rings : List (List Coord)) (polys : List (List (List Coord)))
    (h3 : Bool) (hw : ro.wireframe = true) (hne : polys ≠ []) :
    ((h3 && !ro.extrude) = true ∨ ro.extrude = true →
      (polygonPrims h3 ro cen rings).any isEdgeOutline = true ∧
      (geometryToPrimitives h3 ro cen (Geometry.multiPolygon polys)).any
        isEdgeOutline = true) ∧
    (h3 = false → ro.extrude = false →
      (polygonPrims h3 ro cen rings).any isEdgeOutline = false ∧
      (geometryToPrimitives h3 ro cen (Geometry.multiPolygon polys)).any
        isEdgeOutline = false) := by
  have hmp : (geometryToPrimitives h3 ro cen (Geometry.multiPolygon polys)).any
      isEdgeOutline =
      polys.any (fun poly => (polygonPrims h3 ro cen poly).any isEdgeOutline) := by
    simp [geometryToPrimitives, any_foldl_append]
  have hpp : ∀ rs, (polygonPrims h3 ro cen rs).any isEdgeOutline =
      (h3 && !ro.extrude || ro.extrude) :=
    fun rs => polygonPrims_any_isEdgeOutline h3 ro cen rs hw
  constructor
  · intro hcase
    have hval : (h3 && !ro.extrude || ro.extrude) = true := by
      rcases hcase with h | h <;> simp [h]
    refine ⟨by rw [hpp, hval], ?_⟩
    rw [hmp]
    rcases polys with _ | ⟨q, qs⟩
    · exact absurd rfl hne
    · simp [hpp, hval]
  · intro h3f hexf
    have hval : (h3 && !ro.extrude || ro.extrude) = false := by
      simp [h3f, hexf]
    refine ⟨by rw [hpp, hval], ?_⟩
    rw [hmp]
    simp [hpp, hval]

/-- Witness for C7 on the 3D path at a concrete 3D ring with default
(wireframe-on) options. -/
theorem c7_witness :
    (polygonPrims true (resolveOptions emptyOptions) (0, 0, 0) [ring3D]).any
      isEdgeOutline = true :=
  ((c7_wireframe_modes (resolveOptions emptyOptions) (0, 0, 0) [ring3D] [[ring3D]]
      true rfl (List.cons_ne_nil _ _)).1 (Or.inl rfl)).1

/-! ## Claim C1 -/

/-- C1 counterexample: with a loaded content object and a conversion that
throws, loadGeoJSON does re-throw the error, but the scene no longer contains
the prior content object and its resources have been disposed, refuting the
claim that the prior content is left untouched. -/
theorem c1_counterexample :
    (loadGeoJSON loadedState (some 0) failConvert).2 = some ("boom") ∧
    ¬ (1 ∈ (loadGeoJSON loadedState (some 0) failConvert).1.sceneChildren) ∧
    1 ∈ (loadGeoJSON loadedState (some 0) failConvert).1.disposed :=
  ⟨rfl, by decide, by decide⟩

/-- C1 amended: when the conversion throws, the error is caught, logged and
re-thrown to the caller, but the previously loaded content was already
removed from the scene and its resources disposed before the conversion was
attempted: after the failed load the viewer holds no content object, the
prior object is erased from the scene children, and it sits in the disposed
list.  There is no partial replacement, and no preservation either. -/
theorem c1_error_disposes_prior {α : Type} (st : ViewerState) (o : Nat) (g : α)
    (convert : α → Except String Nat) (e : String)
    (ho : st.currentObject = some o) (hc : convert g = Except.error e) :
    (loadGeoJSON st (some g) convert).2 = some e ∧
    (loadGeoJSON st (some g) convert).1.currentObject = none ∧
    (loadGeoJSON st (some g) convert).1.sceneChildren = st.sceneChildren.erase o ∧
    (loadGeoJSON st (some g) convert).1.disposed = st.disposed ++ [o] := by
  simp [loadGeoJSON, clearCurrentObject, ho, hc]

/-- Witness for C1 at a concrete loaded state and the always-throwing
converter. -/
theorem c1_witness :
    (loadGeoJSON (⟨some 7, [7, 3], [2]⟩ : ViewerState) (some 5) failConvert).2 =
      some ("boom") ∧
    (loadGeoJSON (⟨some 7, [7, 3], [2]⟩ : ViewerState) (some 5)
      failConvert).1.currentObject = none ∧
    (loadGeoJSON (⟨some 7, [7, 3], [2]⟩ : ViewerState) (some 5)
      failConvert).1.sceneChildren = ([7, 3] : List Nat).erase 7 ∧
    (loadGeoJSON (⟨some 7, [7, 3], [2]⟩ : ViewerState) (some 5)
      failConvert).1.disposed = [2] ++ [7] :=
  @c1_error_disposes_prior Nat ⟨some 7, [7, 3], [2]⟩ 7 5 failConvert ("boom") rfl rfl

/-! ## Claim C4 -/

theorem processSFCGAL_cases {γ : Type} (env : SFCGALEnv γ) :
    (processSFCGALOperation env).1 = [] ∨
      ((processSFCGALOperation env).1 =
          [DocMutation.addSource env.sourceId, DocMutation.addLayer env.layerId] ∧
        env.available = true ∧
        (∃ gs gj res, env.geojsonString = some gs ∧ env.parse gs = Except.ok gj ∧
          env.execute gj = Except.ok res) ∧
        (∃ fv, env.formValues = some fv ∧
          (fv.embedOutputLayer = true ∨ ∃ u, env.save = Except.ok u))) := by
  cases hav : env.available
  · exact Or.inl (by simp [processSFCGALOperation, hav])
  cases hsel : env.selected
  · exact Or.inl (by simp [processSFCGALOperation, hav, hsel])
  rcases hgs : env.geojsonString with _ | gs
  · exact Or.inl (by simp [processSFCGALOperation, hav, hsel, hgs])
  rcases hfv : env.formValues with _ | fv
  · exact Or.inl (by simp [processSFCGALOperation, hav, hsel, hgs, hfv])
  rcases hparse : env.parse gs with e | gj
  · exact Or.inl (by simp [processSFCGALOperation, hav, hsel, hgs, hfv, hparse])
  rcases hexec : env.execute gj with e | res
  · exact Or.inl (by simp [processSFCGALOperation, hav, hsel, hgs, hfv, hparse, hexec])
  cases hembed : fv.embedOutputLayer
  · rcases hsave : env.save with e | u
    · exact Or.inl (by
        simp [processSFCGALOperation, hav, hsel, hgs, hfv, hparse, hexec, hembed, hsave])
    · exact Or.inr ⟨by
        simp [processSFCGALOperation, hav, hsel, hgs, hfv, hparse, hexec, hembed, hsave],
        rfl, ⟨gs, gj, res, rfl, hparse, hexec⟩, ⟨fv, rfl, Or.inr ⟨u, rfl⟩⟩⟩
  · exact Or.inr ⟨by
      simp [processSFCGALOperation, hav, hsel, hgs, hfv, hparse, hexec, hembed],
      rfl, ⟨gs, gj, res, rfl, hparse, hexec⟩, ⟨fv, rfl, Or.inl hembed⟩⟩

/-- C4: in processSFCGALOperation, the document mutation list is either empty
or exactly one addSource followed by one addLayer; an unavailable service, a
JSON parse error, a remote processing error, or a file save error on the
file-backed path each leave the document untouched; and any mutation at all
implies the remote operation returned successfully first.  No path creates a
half source-plus-layer pair. -/
theorem c4_no_partial_mutation {γ : Type} (env : SFCGALEnv γ) :
    ((processSFCGALOperation env).1 = [] ∨
      (processSFCGALOperation env).1 =
        [DocMutation.addSource env.sourceId, DocMutation.addLayer env.layerId]) ∧
    (env.available = false → (processSFCGALOperation env).1 = []) ∧
    (∀ gs e, env.geojsonString = some gs → env.parse gs = Except.error e →
      (processSFCGALOperation env).1 = []) ∧
    (∀ gs gj e, env.geojsonString = some gs → env.parse gs = Except.ok gj →
      env.execute gj = Except.error e → (processSFCGALOperation env).1 = []) ∧
    (∀ fv e, env.formValues = some fv → fv.embedOutputLayer = false →
      env.save = Except.error e → (processSFCGALOperation env).1 = []) ∧
    ((processSFCGALOperation env).1 ≠ [] →
      ∃ gs gj res, env.geojsonString = some gs ∧ env.parse gs = Except.ok gj ∧
        env.execute gj = Except.ok res) := by
  rcases processSFCGAL_cases env with h |
    ⟨hmut, hav, ⟨gs, gj, res, hgs, hparse, hexec⟩, ⟨fv, hfv, hsf⟩⟩
  · exact ⟨Or.inl h, fun _ => h, fun _ _ _ _ => h, fun _ _ _ _ _ _ => h,
      fun _ _ _ _ _ => h, fun hne => absurd h hne⟩
  · refine ⟨Or.inr hmut, ?_, ?_, ?_, ?_, fun _ => ⟨gs, gj, res, hgs, hparse, hexec⟩⟩
    · intro hfalse
      rw [hav] at hfalse
      exact absurd hfalse (by simp)
    · intro gs2 e hgs2 hparse2
      rw [hgs] at hgs2
      cases Option.some.inj hgs2
      rw [hparse] at hparse2
      exact absurd hparse2 (by simp)
    · intro gs2 gj2 e hgs2 hparse2 hexec2
      rw [hgs] at hgs2
      cases Option.some.inj hgs2
      rw [hparse] at hparse2
      cases hparse2
      rw [hexec] at hexec2
      exact absurd hexec2 (by simp)
    · intro fv2 e hfv2 hembed hsave
      rw [hfv] at hfv2
      cases Option.some.inj hfv2
      rcases hsf with hemb | ⟨u, hok⟩
      · rw [hembed] at hemb
        exact absurd hemb (by simp)
      · rw [hok] at hsave
        exact absurd hsave (by simp)

/-- Witness for C4: an unavailable service mutates nothing. -/
theorem c4_witness :
    (processSFCGALOperation
      (⟨false, true, some ("gj"), some ⟨true⟩, fun _ => Except.ok 0,
        fun n => Except.ok n, Except.ok (), 11, 12⟩ : SFCGALEnv Nat)).1 = [] :=
  (c4_no_partial_mutation
    (⟨false, true, some ("gj"), some ⟨true⟩, fun _ => Except.ok 0,
      fun n => Except.ok n, Except.ok (), 11, 12⟩ : SFCGALEnv Nat)).2.1 rfl

/-! ## Camera helper lemmas -/

theorem camAngle_pos : 0 < Real.pi * 50 / 360 := by
  positivity

theorem camAngle_lt : Real.pi * 50 / 360 < Real.pi / 2 := by
  have h := Real.pi_pos
  linarith

theorem arctan_camAngle_pos : 0 < Real.arctan (Real.pi * 50 / 360) := by
  rw [← Real.arctan_zero]
  exact Real.arctan_strictMono camAngle_pos

theorem arctan_lt_tan_camAngle :
    Real.arctan (Real.pi * 50 / 360) < Real.tan (Real.pi * 50 / 360) := by
  have h1 : Real.arctan (Real.pi * 50 / 360) < Real.pi * 50 / 360 := by
    have h := Real.lt_tan arctan_camAngle_pos
      (Real.arctan_lt_pi_div_two (Real.pi * 50 / 360))
    rwa [Real.tan_arctan] at h
  have h2 := Real.lt_tan camAngle_pos camAngle_lt
  linarith

theorem normalize_dir :
    Vec3.normalize ⟨1, -1, 1⟩ =
      ⟨1 / Real.sqrt 3, -1 / Real.sqrt 3, 1 / Real.sqrt 3⟩ := by
  have hl : Vec3.length ⟨1, -1, 1⟩ = Real.sqrt 3 := by
    simp [Vec3.length]
    norm_num
  have h3 : Real.sqrt 3 ≠ 0 := (Real.sqrt_pos.mpr (by norm_num)).ne'
  simp [Vec3.normalize, hl, h3]

theorem length_smul (a : Vec3) (s : ℝ) : (a.smul s).length = |s| * a.length := by
  simp only [Vec3.smul, Vec3.length]
  rw [show (a.x * s) ^ 2 + (a.y * s) ^ 2 + (a.z * s) ^ 2 =
      s ^ 2 * (a.x ^ 2 + a.y ^ 2 + a.z ^ 2) by ring]
  rw [Real.sqrt_mul (sq_nonneg s), Real.sqrt_sq_eq_abs]

theorem length_normalize_dir : (Vec3.normalize ⟨1, -1, 1⟩).length = 1 := by
  rw [normalize_dir]
  simp only [Vec3.length]
  rw [show (1 / Real.sqrt 3) ^ 2 + (-1 / Real.sqrt 3) ^ 2 + (1 / Real.sqrt 3) ^ 2 =
      3 / Real.sqrt 3 ^ 2 by ring]
  rw [Real.sq_sqrt (by norm_num : (0:ℝ) ≤ 3)]
  norm_num

theorem computeCameraPosition_aspect_one (b : Box3) (fov : ℝ) :
    computeCameraPosition b fov 1 =
      (b.getCenter).add ((Vec3.normalize ⟨1, -1, 1⟩).smul
        (max (max b.getSize.x b.getSize.y) b.getSize.z /
          (2 * Real.arctan (Real.pi * fov / 360)))) := by
  simp only [computeCameraPosition]
  rw [div_one, max_self]

theorem cameraPositionSpec_aspect_one (b : Box3) (fov : ℝ) :
    cameraPositionSpec b fov 1 =
      (b.getCenter).add ((Vec3.normalize ⟨1, -1, 1⟩).smul
        (max (max b.getSize.x b.getSize.y) b.getSize.z /
          (2 * Real.tan (Real.pi * fov / 360)))) := by
  simp only [cameraPositionSpec]
  rw [div_one, max_self]

/-! ## Claim C2 -/

/-- C2 counterexample: on the unit box the position computed by the source
(which divides by twice the arctangent of pi times fov over 360) differs from
the position the claim states (dividing by twice the tangent of that angle):
the two distances differ because arctan x is strictly below tan x on this
angle. -/
theorem c2_counterexample :
    computeCameraPosition unitBox 50 1 ≠ cameraPositionSpec unitBox 50 1 := by
  have hne : ¬ unitBox.isEmpty := by
    simp [Box3.isEmpty, unitBox]
  have hsize : unitBox.getSize = ⟨1, 1, 1⟩ := by
    rw [Box3.getSize, if_neg hne]
    simp [unitBox, Vec3.sub]
  have hcenter : unitBox.getCenter = ⟨1/2, 1/2, 1/2⟩ := by
    rw [Box3.getCenter, if_neg hne]
    simp [unitBox, Vec3.add, Vec3.smul]
  have hcode : computeCameraPosition unitBox 50 1 =
      (⟨1/2, 1/2, 1/2⟩ : Vec3).add ((Vec3.normalize ⟨1, -1, 1⟩).smul
        (1 / (2 * Real.arctan (Real.pi * 50 / 360)))) := by
    rw [computeCameraPosition_aspect_one, hsize, hcenter]
    simp
  have hspec : cameraPositionSpec unitBox 50 1 =
      (⟨1/2, 1/2, 1/2⟩ : Vec3).add ((Vec3.normalize ⟨1, -1, 1⟩).smul
        (1 / (2 * Real.tan (Real.pi * 50 / 360)))) := by
    rw [cameraPositionSpec_aspect_one, hsize, hcenter]
    simp
  have hxcode : (computeCameraPosition unitBox 50 1).x =
      1/2 + 1 / Real.sqrt 3 * (1 / (2 * Real.arctan (Real.pi * 50 / 360))) := by
    rw [hcode, normalize_dir]
    simp [Vec3.add, Vec3.smul]
  have hxspec : (cameraPositionSpec unitBox 50 1).x =
      1/2 + 1 / Real.sqrt 3 * (1 / (2 * Real.tan (Real.pi * 50 / 360))) := by
    rw [hspec, normalize_dir]
    simp [Vec3.add, Vec3.smul]
  intro h
  have hx : (computeCameraPosition unitBox 50 1).x =
      (cameraPositionSpec unitBox 50 1).x := congrArg Vec3.x h
  rw [hxcode, hxspec] at hx
  have hsq : (0:ℝ) < 1 / Real.sqrt 3 := by positivity
  have h2 : 1 / Real.sqrt 3 * (1 / (2 * Real.arctan (Real.pi * 50 / 360))) =
      1 / Real.sqrt 3 * (1 / (2 * Real.tan (Real.pi * 50 / 360))) := by
    linarith
  have h3 : (1:ℝ) / (2 * Real.arctan (Real.pi * 50 / 360)) =
      1 / (2 * Real.tan (Real.pi * 50 / 360)) :=
    mul_left_cancel₀ (ne_of_gt hsq) h2
  have hkey : (1:ℝ) / (2 * Real.tan (Real.pi * 50 / 360)) <
      1 / (2 * Real.arctan (Real.pi * 50 / 360)) := by
    apply one_div_lt_one_div_of_lt
    · linarith [arctan_camAngle_pos]
    · linarith [arctan_lt_tan_camAngle]
  linarith

/-- C2 amended: with fov 50 and aspect 1 computeCameraPosition returns
center plus d times the normalized direction (1, -1, 1) where the distance d
equals maxSize divided by twice the arctangent (Math.atan, as the source
computes, not the tangent) of fov times pi over 360; for a cubic volume of
size S centered at the origin the displacement from the center is exactly
that multiple of the normalized direction and the camera distance from the
center equals S divided by twice that arctangent. -/
theorem c2_camera_framing (S : ℝ) (hS : 0 ≤ S) :
    (∀ b : Box3, computeCameraPosition b 50 1 =
      (b.getCenter).add ((Vec3.normalize ⟨1, -1, 1⟩).smul
        (max (max b.getSize.x b.getSize.y) b.getSize.z /
          (2 * Real.arctan (Real.pi * 50 / 360))))) ∧
    (computeCameraPosition (cubeBox S) 50 1).sub ((cubeBox S).getCenter) =
      (Vec3.normalize ⟨1, -1, 1⟩).smul (S / (2 * Real.arctan (Real.pi * 50 / 360))) ∧
    Vec3.length ((computeCameraPosition (cubeBox S) 50 1).sub ((cubeBox S).getCenter)) =
      S / (2 * Real.arctan (Real.pi * 50 / 360)) := by
  have hne : ¬ (cubeBox S).isEmpty := by
    simp [Box3.isEmpty, cubeBox]
    linarith
  have hsz : (cubeBox S).getSize = ⟨S, S, S⟩ := by
    rw [Box3.getSize, if_neg hne]
    simp [cubeBox, Vec3.sub, Vec3.mk.injEq]
  have hc : (cubeBox S).getCenter = ⟨0, 0, 0⟩ := by
    rw [Box3.getCenter, if_neg hne]
    simp [cubeBox, Vec3.add, Vec3.smul, Vec3.mk.injEq]
  have h1 : computeCameraPosition (cubeBox S) 50 1 =
      (⟨0, 0, 0⟩ : Vec3).add ((Vec3.normalize ⟨1, -1, 1⟩).smul
        (S / (2 * Real.arctan (Real.pi * 50 / 360)))) := by
    rw [computeCameraPosition_aspect_one, hsz, hc]
    rw [show max (max S S) S = S by rw [max_self, max_self]]
  have h2 : (computeCameraPosition (cubeBox S) 50 1).sub ((cubeBox S).getCenter) =
      (Vec3.normalize ⟨1, -1, 1⟩).smul (S / (2 * Real.arctan (Real.pi * 50 / 360))) := by
    rw [h1, hc]
    simp [Vec3.add, Vec3.sub]
  have hd : 0 ≤ S / (2 * Real.arctan (Real.pi * 50 / 360)) :=
    div_nonneg hS (by linarith [arctan_camAngle_pos])
  refine ⟨fun b => computeCameraPosition_aspect_one b 50, h2, ?_⟩
  rw [h2, length_smul, length_normalize_dir, mul_one, abs_of_nonneg hd]

/-- Witness for C2 at the cube of edge 2 centered at the origin. -/
theorem c2_witness :
    Vec3.length ((computeCameraPosition (cubeBox 2) 50 1).sub ((cubeBox 2).getCenter)) =
      2 / (2 * Real.arctan (Real.pi * 50 / 360)) :=
  (c2_camera_framing 2 zero_le_two).2.2

/-! ## Claim C9 -/

/-- C9 counterexample: on the zero-size box at the origin the computed
distance is exactly zero, not a strictly positive minimum: the returned
position coincides with the center of the volume. -/
theorem c9_counterexample :
    computeCameraPosition zeroBox 50 1 = Box3.getCenter zeroBox ∧
    ¬ (0 < Vec3.length ((computeCameraPosition zeroBox 50 1).sub
        (Box3.getCenter zeroBox))) := by
  have hne : ¬ zeroBox.isEmpty := by
    simp [Box3.isEmpty, zeroBox]
  have hsz : zeroBox.getSize = ⟨0, 0, 0⟩ := by
    rw [Box3.getSize, if_neg hne]
    simp [zeroBox, Vec3.sub]
  have h1 : computeCameraPosition zeroBox 50 1 = Box3.getCenter zeroBox := by
    rw [computeCameraPosition_aspect_one, hsz]
    generalize Box3.getCenter zeroBox = c
    rcases c with ⟨cx, cy, cz⟩
    simp [Vec3.add, Vec3.smul]
  refine ⟨h1, ?_⟩
  rw [h1]
  simp [Vec3.sub, Vec3.length]

/-- C9 amended: for a degenerate (zero-size) bounding volume the computed
distance is 0, with no clamping to a positive minimum: computeCameraPosition
returns exactly the center of the volume, at distance zero from it, for any
fov and aspect. -/
theorem c9_degenerate_center (b : Box3) (fov aspect : ℝ) (h : b.min = b.max) :
    computeCameraPosition b fov aspect = b.getCenter := by
  have hne : ¬ b.isEmpty := by
    simp [Box3.isEmpty, h]
  have hsz : b.getSize = ⟨0, 0, 0⟩ := by
    rw [Box3.getSize, if_neg hne, h]
    simp [Vec3.sub]
  simp only [computeCameraPosition]
  rw [hsz]
  generalize b.getCenter = c
  rcases c with ⟨cx, cy, cz⟩
  simp [Vec3.add, Vec3.smul]

/-- Witness for C9 at a degenerate box away from the origin with non-default
fov and aspect. -/
theorem c9_witness :
    computeCameraPosition ⟨⟨1, 2, 3⟩, ⟨1, 2, 3⟩⟩ 60 2 =
      Box3.getCenter ⟨⟨1, 2, 3⟩, ⟨1, 2, 3⟩⟩ :=
  c9_degenerate_center ⟨⟨1, 2, 3⟩, ⟨1, 2, 3⟩⟩ 60 2 rfl

end JGIS
